import Mathlib

/-!
# identity-platform-login-ui: tracing set-up and the consent handler

A shallow embedding of `internal/tracing/tracer.go` and of the consent
endpoint exercised by `pkg/extra/handlers_test.go`.

Go values that come from libraries (the OpenTelemetry SDK, `runtime/debug`,
the Ory clients) are represented by small records that keep exactly the
fields the code reads or writes.  Effects (calls to exporter constructors,
writes to the process-wide OpenTelemetry globals, logger calls) are made
explicit: every effectful function takes a `World` and returns the new one,
and each external call is appended to `World.trace` at the place where the
source performs it.
-/

set_option autoImplicit false

/-! ## `runtime/debug` -/

namespace debug

/-- A key-value pair of `debug.BuildInfo.Settings`. -/
structure BuildSetting where
  Key : String
  Value : String
deriving DecidableEq, Repr

/-- The record `debug.Module` (the fields without pointers). -/
structure Module where
  Path : String
  Version : String
  Sum : String
deriving DecidableEq, Repr

/-- The record `debug.BuildInfo`: `Path` is the package path of the main
package of the binary, `Main` is the module that contains that package. -/
structure BuildInfo where
  GoVersion : String
  Path : String
  Main : Module
  Settings : List BuildSetting
deriving DecidableEq, Repr

end debug

/-! ## OpenTelemetry values -/

namespace otel

/-- An `attribute.KeyValue` whose value is a string. -/
structure KeyValue where
  Key : String
  Value : String
deriving DecidableEq, Repr

/-- The constructor `attribute.String(k, v)`. -/
def attributeString (k v : String) : KeyValue := ⟨k, v⟩

/-- The constant `semconv.SchemaURL` of semconv v1.18.0. -/
def SchemaURL : String := "https://opentelemetry.io/schemas/1.18.0"

/-- The helper `semconv.ServiceName(v)`: the attribute with key `service.name`. -/
def ServiceName (v : String) : KeyValue := attributeString "service.name" v

/-- The helper `semconv.ServiceVersion(v)`: the attribute with key `service.version`. -/
def ServiceVersion (v : String) : KeyValue := attributeString "service.version" v

/-- A `resource.Resource`: a schema URL and the attributes it was built from.
The attributes are kept in the order in which they were passed. -/
structure Resource where
  schemaURL : String
  attrs : List KeyValue
deriving DecidableEq, Repr

/-- The constructor `resource.NewWithAttributes(schemaURL, attrs...)`. -/
def NewWithAttributes (schemaURL : String) (attrs : List KeyValue) : Resource :=
  ⟨schemaURL, attrs⟩

/-- The value of the attribute with key `k`, if the resource carries one. -/
def Resource.lookup (r : Resource) (k : String) : Option String :=
  match r.attrs.find? (fun kv => decide (kv.Key = k)) with
  | some kv => some kv.Value
  | none => none

/-- The keys of the attributes of a resource, in order. -/
def Resource.keys (r : Resource) : List String := r.attrs.map (fun kv => kv.Key)

/-- A Go `error` value that is not nil. -/
structure Error where
  msg : String
deriving DecidableEq, Repr

/-- A `sdktrace.SpanExporter` handed out by an exporter constructor. -/
structure SpanExporter where
  id : Nat
deriving DecidableEq, Repr

/-- The argument of `jaeger.WithCollectorEndpoint`. -/
inductive CollectorEndpointOption where
  | WithEndpoint (endpoint : String)
deriving DecidableEq, Repr

/-- The argument of `jaeger.New`. -/
inductive EndpointOption where
  | WithCollectorEndpoint (opts : List CollectorEndpointOption)
deriving DecidableEq, Repr

/-- The options of `stdouttrace.New`. -/
inductive StdoutOption where
  | WithPrettyPrint
deriving DecidableEq, Repr

/-- The samplers of `sdktrace`. -/
inductive Sampler where
  | AlwaysSample
deriving DecidableEq, Repr

/-- What `sdktrace.NewTracerProvider` is configured with in this program. -/
structure TracerProvider where
  sampler : Sampler
  batcher : SpanExporter
  resource : Resource
deriving DecidableEq, Repr

/-- The two propagators of the `propagation` package the program uses. -/
inductive Propagator where
  | TraceContext
  | Baggage
deriving DecidableEq, Repr

/-- The result of `propagation.NewCompositeTextMapPropagator(ps...)`. -/
structure TextMapPropagator where
  composite : List Propagator
deriving DecidableEq, Repr

/-- A `trace.Tracer` obtained from `otel.Tracer(name)`: the name it was asked
for and the provider that was installed process-wide at that moment. -/
structure TraceTracer where
  provider : Option TracerProvider
  name : String
deriving DecidableEq, Repr

end otel

/-! ## Package `tracing` -/

namespace tracing

open otel debug

/-- A handle for a `logging.LoggerInterface` value. -/
structure LoggerInterface where
  id : Nat
deriving DecidableEq, Repr

/-- The fields of `tracing.Config` that `NewTracer` reads; the declaration of
the type is not among the sources.  `Logger` is the logger the caller
supplies. -/
structure Config where
  JaegerEndpoint : String
  Logger : LoggerInterface
deriving DecidableEq, Repr

/-- The record `Tracer`; `tracer` is nil until `init` has run. -/
structure Tracer where
  tracer : Option TraceTracer
  logger : LoggerInterface
deriving DecidableEq, Repr

/-- An external call made by the package, recorded at its call site. -/
inductive Call where
  | jaegerNew (opts : List EndpointOption)
  | stdouttraceNew (opts : List StdoutOption)
  | buildResource (service : String)
  | NewTracerProvider (tp : TracerProvider)
  | SetTracerProvider (tp : TracerProvider)
  | SetTextMapPropagator (p : TextMapPropagator)
  | otelTracer (name : String)
  | Errorf (logger : LoggerInterface) (format : String) (err : Error)
deriving DecidableEq, Repr

/-- Whether a call is a call to an exporter constructor. -/
def Call.isExporterNew : Call → Bool
  | Call.jaegerNew _ => true
  | Call.stdouttraceNew _ => true
  | _ => false

/-- Whether a call is a call to the logger method `Errorf`. -/
def Call.isErrorf : Call → Bool
  | Call.Errorf _ _ _ => true
  | _ => false

/-- Whether a call is the call of `buildResource`. -/
def Call.isBuildResource : Call → Bool
  | Call.buildResource _ => true
  | _ => false

/-- Whether a call is one of the calls the method `init` makes. -/
def Call.isInitCall : Call → Bool
  | Call.buildResource _ => true
  | Call.NewTracerProvider _ => true
  | Call.SetTracerProvider _ => true
  | Call.SetTextMapPropagator _ => true
  | Call.otelTracer _ => true
  | _ => false

/-- The exporter constructors of the two exporter libraries. -/
structure Exporters where
  jaegerNew : List EndpointOption → Except Error SpanExporter
  stdouttraceNew : List StdoutOption → Except Error SpanExporter

/-- The process state the package reads and writes: the build metadata that
`debug.ReadBuildInfo` reports (`none` when it reports not ok), the two
OpenTelemetry globals, and the calls made so far. -/
structure World where
  buildInfo : Option BuildInfo
  tracerProvider : Option TracerProvider
  textMapPropagator : Option TextMapPropagator
  trace : List Call

/-- Append a call to the trace. -/
def World.record (w : World) (c : Call) : World :=
  { w with trace := w.trace ++ [c] }

/-- The calls made between the world `w` and the later world `w2`. -/
def World.callsSince (w2 w : World) : List Call := w2.trace.drop w.trace.length

/-- The method `(*Tracer).gitRevision`. -/
def Tracer.gitRevision (t : Tracer) (settings : List BuildSetting) : String :=
  match settings with
  | [] => "n/a"
  | setting :: rest =>
    if setting.Key = "vcs.revision" then setting.Value else t.gitRevision rest

/-- The method `(*Tracer).buildResource`; `readBuildInfo` is the result of
`debug.ReadBuildInfo()`. -/
def Tracer.buildResource (t : Tracer) (readBuildInfo : Option BuildInfo)
    (service : String) : Resource :=
  let res := NewWithAttributes SchemaURL [ServiceName service, ServiceVersion "n/a"]
  match readBuildInfo with
  | some info =>
    let service := if service = "" then info.Path else service
    NewWithAttributes SchemaURL
      [ServiceName service,
       attributeString "git_sha" (t.gitRevision info.Settings),
       attributeString "app" info.Main.Path]
  | none => res

/-- The method `(*Tracer).init`. -/
def Tracer.init (t : Tracer) (service : String) (e : SpanExporter) (w : World) :
    Tracer × World :=
  let w := w.record (Call.buildResource service)
  let traceProvider : TracerProvider :=
    { sampler := Sampler.AlwaysSample, batcher := e,
      resource := t.buildResource w.buildInfo service }
  let w := w.record (Call.NewTracerProvider traceProvider)
  let w := { w.record (Call.SetTracerProvider traceProvider) with
             tracerProvider := some traceProvider }
  let p : TextMapPropagator := ⟨[Propagator.TraceContext, Propagator.Baggage]⟩
  let w := { w.record (Call.SetTextMapPropagator p) with textMapPropagator := some p }
  let w := w.record (Call.otelTracer service)
  ({ t with tracer := some { provider := w.tracerProvider, name := service } }, w)

/-- The exporter construction at the head of `NewTracer`: the constructor
that is called, its result, and the world with the call recorded. -/
def newExporter (env : Exporters) (cfg : Config) (w : World) :
    Except Error SpanExporter × World :=
  if cfg.JaegerEndpoint ≠ "" then
    let opts := [EndpointOption.WithCollectorEndpoint
      [CollectorEndpointOption.WithEndpoint cfg.JaegerEndpoint]]
    (env.jaegerNew opts, w.record (Call.jaegerNew opts))
  else
    let opts := [StdoutOption.WithPrettyPrint]
    (env.stdouttraceNew opts, w.record (Call.stdouttraceNew opts))

/-- The function `NewTracer`; `none` is the nil tracer. -/
def NewTracer (env : Exporters) (cfg : Config) (w : World) : Option Tracer × World :=
  let t : Tracer := { tracer := none, logger := cfg.Logger }
  match newExporter env cfg w with
  | (Except.error err, w) =>
    (none, w.record
      (Call.Errorf t.logger "unable to initialize tracing exporter due: %w" err))
  | (Except.ok exporter, w) =>
    let (t, w) := t.init "github.com/canonical/identity-platform-login-ui" exporter w
    (some t, w)

end tracing

/-! ## JSON text of a consent decision -/

namespace json

/-- The double quote character. -/
def quote : Char := Char.ofNat 34

/-- The backslash character. -/
def backslash : Char := Char.ofNat 92

/-- The lower-case hexadecimal digit of a number below sixteen. -/
def hexDigit (n : Nat) : Char :=
  if n < 10 then Char.ofNat (48 + n) else Char.ofNat (87 + n)

/-- The number a hexadecimal digit stands for. -/
def hexValue (c : Char) : Option Nat :=
  let n := c.toNat
  if 48 ≤ n ∧ n ≤ 57 then some (n - 48)
  else if 97 ≤ n ∧ n ≤ 102 then some (n - 87)
  else if 65 ≤ n ∧ n ≤ 70 then some (n - 55)
  else none

/-- The four hexadecimal digits of a number below 65536. -/
def hex4 (n : Nat) : List Char :=
  [hexDigit (n / 4096), hexDigit (n / 256 % 16), hexDigit (n / 16 % 16), hexDigit (n % 16)]

/-- The number four hexadecimal digits stand for. -/
def hex4Value (a b c d : Char) : Option Nat :=
  match hexValue a, hexValue b, hexValue c, hexValue d with
  | some x, some y, some z, some u => some (((x * 16 + y) * 16 + z) * 16 + u)
  | _, _, _, _ => none

/-- Modelled from the spec: the JSON encoder is a library the repository calls.
Whether a character is written as a six-character unicode escape: control
characters, the three characters escaped for HTML safety, and the two
unicode line separators. -/
def needsUnicodeEscape (c : Char) : Bool :=
  decide (c.toNat < 32) || decide (c.toNat = 60) || decide (c.toNat = 62) ||
  decide (c.toNat = 38) || decide (c.toNat = 8232) || decide (c.toNat = 8233)

/-- Modelled from the spec: the JSON encoder is a library the repository calls.
The characters written for one character of a JSON string. -/
def escapeChar (c : Char) : List Char :=
  if c = quote then [backslash, quote]
  else if c = backslash then [backslash, backslash]
  else if c.toNat = 10 then [backslash, 'n']
  else if c.toNat = 13 then [backslash, 'r']
  else if c.toNat = 9 then [backslash, 't']
  else if needsUnicodeEscape c then backslash :: 'u' :: hex4 c.toNat
  else [c]

/-- The characters written for the content of a JSON string. -/
def escape : List Char → List Char
  | [] => []
  | c :: rest => escapeChar c ++ escape rest

/-- The character a one-letter escape stands for. -/
def unescapeSimple (e : Char) : Option Char :=
  if e = quote then some quote
  else if e = backslash then some backslash
  else if e = '/' then some '/'
  else if e = 'b' then some (Char.ofNat 8)
  else if e = 'f' then some (Char.ofNat 12)
  else if e = 'n' then some (Char.ofNat 10)
  else if e = 'r' then some (Char.ofNat 13)
  else if e = 't' then some (Char.ofNat 9)
  else none

/-- How far the string reader is inside an escape sequence. -/
inductive Mode where
  | plain
  | escaped
  | unicode (digits : List Char)
deriving DecidableEq, Repr

/-- Modelled from the spec: the JSON decoder is a library the test calls.
Read the content of a JSON string up to its closing quote; `acc` holds the
characters read so far, last first.  The result is the content and the text
that follows the closing quote. -/
def readString : Mode → List Char → List Char → Option (List Char × List Char)
  | _, _, [] => none
  | Mode.plain, acc, c :: rest =>
    if c = quote then some (acc.reverse, rest)
    else if c = backslash then readString Mode.escaped acc rest
    else readString Mode.plain (c :: acc) rest
  | Mode.escaped, acc, e :: rest =>
    if e = 'u' then readString (Mode.unicode []) acc rest
    else
      match unescapeSimple e with
      | some ch => readString Mode.plain (ch :: acc) rest
      | none => none
  | Mode.unicode [a, b, c], acc, d :: rest =>
    match hex4Value a b c d with
    | some n => readString Mode.plain (Char.ofNat n :: acc) rest
    | none => none
  | Mode.unicode ds, acc, d :: rest => readString (Mode.unicode (ds ++ [d])) acc rest

/-- The text before the value of the one field of a consent decision. -/
def header : List Char :=
  [Char.ofNat 123, quote] ++ "redirect_to".data ++ [quote, ':', quote]

/-- Remove `pre` from the front of `l`, if it is there. -/
def dropHeader : List Char → List Char → Option (List Char)
  | [], l => some l
  | _ :: _, [] => none
  | p :: pre, c :: l => if p = c then dropHeader pre l else none

end json

/-! ## Package `extra`: the consent endpoint -/

namespace extra

open otel

/-- A request cookie. -/
structure Cookie where
  Name : String
  Value : String
deriving DecidableEq, Repr

/-- The identity of the identity provider client: subject identifier, schema
reference and traits. -/
structure Identity where
  Id : String
  SchemaId : String
  SchemaUrl : String
  Traits : List (String × String)
deriving DecidableEq, Repr

/-- The session of the identity provider client. -/
structure Session where
  Id : String
  Identity : Identity
deriving DecidableEq, Repr

/-- The consent request of the consent provider client. -/
structure OAuth2ConsentRequest where
  Challenge : String
deriving DecidableEq, Repr

/-- The accept decision of the consent provider client. -/
structure OAuth2RedirectTo where
  RedirectTo : String
deriving DecidableEq, Repr

/-- The interface `ServiceInterface` that the handler is given (mocked in the
tests); the context argument carries no data the handler depends on. -/
structure ServiceInterface where
  CheckSession : List Cookie → Except Error Session
  GetConsent : String → Except Error OAuth2ConsentRequest
  AcceptConsent : Identity → OAuth2ConsentRequest → Except Error OAuth2RedirectTo

/-- An inbound request to `GET /api/consent`: its cookies and the query
parameters in order. -/
structure Request where
  cookies : List Cookie
  query : List (String × String)
deriving DecidableEq, Repr

/-- The first value of a query parameter, if the request carries it. -/
def Request.queryGet (r : Request) (key : String) : Option String :=
  match r.query.find? (fun kv => decide (kv.1 = key)) with
  | some kv => some kv.2
  | none => none

/-- The response written by the handler. -/
structure Response where
  status : Nat
  body : String
deriving DecidableEq, Repr

/-- A call to one of the three provider methods, with its arguments. -/
inductive ProviderCall where
  | CheckSession (cookies : List Cookie)
  | GetConsent (challenge : String)
  | AcceptConsent (identity : Identity) (consent : OAuth2ConsentRequest)
deriving DecidableEq, Repr

/-- The three pipeline errors of the error taxonomy, with the provider error
that caused them (there is none when the challenge is absent). -/
inductive PipelineError where
  | SessionInvalid (cause : Error)
  | ConsentNotFound (cause : Option Error)
  | DecisionRejected (cause : Error)
deriving DecidableEq, Repr

/-- What one run of the handler does: the response, the provider calls in
order, and the calls to the logger method `Errorf` in order. -/
structure Outcome where
  response : Response
  calls : List ProviderCall
  errorfs : List PipelineError
deriving DecidableEq, Repr

/-- Modelled from the spec: the serialiser of the consent provider client is
a library.  The serialisation of a consent decision as the JSON object with
the one field `redirect_to` (section 6). -/
def MarshalJSON (d : OAuth2RedirectTo) : String :=
  String.mk (json.header ++ json.escape d.RedirectTo.data ++ [json.quote, Char.ofNat 125])

/-- Modelled from the spec: the JSON decoder is a library the test calls.
The decoding of a response body into a consent decision, as the success test
does with `json.Unmarshal`; it accepts the object with the one field
`redirect_to`. -/
def Unmarshal (body : String) : Option OAuth2RedirectTo :=
  match json.dropHeader json.header body.data with
  | none => none
  | some rest =>
    match json.readString json.Mode.plain [] rest with
    | some (s, tail) => if tail = [Char.ofNat 125] then some ⟨String.mk s⟩ else none
    | none => none

/-- Modelled from the spec: part of the handler, which is not among the
sources.  The outcome of a failed run (section 4.4): status 403, empty body,
the error logged once. -/
def failed (calls : List ProviderCall) (e : PipelineError) : Outcome :=
  { response := { status := 403, body := "" }, calls := calls, errorfs := [e] }

/-- Modelled from the spec: the handler `HandleConsent` of `pkg/extra` is not
among the sources (only its tests are).  The orchestrator of section 4.4:
session, then consent request, then decision, each step run only when the one
before succeeded; a failure at any step ends the run with status 403 and one
logged error; an absent challenge is a consent-not-found failure; success
answers 200 with the decision serialised as the body. -/
def HandleConsent (svc : ServiceInterface) (req : Request) : Outcome :=
  let calls := [ProviderCall.CheckSession req.cookies]
  match svc.CheckSession req.cookies with
  | Except.error e => failed calls (PipelineError.SessionInvalid e)
  | Except.ok session =>
    match req.queryGet "consent_challenge" with
    | none => failed calls (PipelineError.ConsentNotFound none)
    | some challenge =>
      let calls := calls ++ [ProviderCall.GetConsent challenge]
      match svc.GetConsent challenge with
      | Except.error e => failed calls (PipelineError.ConsentNotFound (some e))
      | Except.ok consent =>
        let calls := calls ++ [ProviderCall.AcceptConsent session.Identity consent]
        match svc.AcceptConsent session.Identity consent with
        | Except.error e => failed calls (PipelineError.DecisionRejected e)
        | Except.ok accept =>
          { response := { status := 200, body := MarshalJSON accept },
            calls := calls, errorfs := [] }

end extra

/-! ## Sample inputs -/

namespace tracing

open otel debug

/-- A tracer value as `NewTracer` creates it before `init`. -/
def sampleTracer : Tracer := { tracer := none, logger := ⟨7⟩ }

/-- Build metadata of a binary whose main package lies below the module root,
stamped with two `vcs.revision` settings. -/
def sampleInfo : BuildInfo :=
  { GoVersion := "go1.20",
    Path := "example.com/login-ui/cmd/server",
    Main := { Path := "example.com/login-ui", Version := "(devel)", Sum := "" },
    Settings := [⟨"-buildmode", "exe"⟩, ⟨"vcs", "git"⟩, ⟨"vcs.revision", "3f2a9c1"⟩,
                 ⟨"vcs.modified", "false"⟩, ⟨"vcs.revision", "0000000"⟩] }

/-- Build metadata of a binary built outside version control. -/
def sampleInfoNoVcs : BuildInfo :=
  { GoVersion := "go1.20",
    Path := "example.com/login-ui",
    Main := { Path := "example.com/login-ui", Version := "(devel)", Sum := "" },
    Settings := [⟨"-buildmode", "exe"⟩, ⟨"CGO_ENABLED", "0"⟩] }

/-- Exporter constructors that both fail. -/
def failingExporters : Exporters :=
  { jaegerNew := fun _ => Except.error ⟨"invalid collector endpoint"⟩,
    stdouttraceNew := fun _ => Except.error ⟨"stdout is closed"⟩ }

/-- Exporter constructors that both succeed. -/
def workingExporters : Exporters :=
  { jaegerNew := fun _ => Except.ok ⟨1⟩,
    stdouttraceNew := fun _ => Except.ok ⟨2⟩ }

/-- Exporter constructors that succeed only on the options the two sample
configs lead to, each with an exporter of its own. -/
def checkingExporters : Exporters :=
  { jaegerNew := fun opts =>
      if opts = [EndpointOption.WithCollectorEndpoint
          [CollectorEndpointOption.WithEndpoint "http://jaeger:14268/api/traces"]]
      then Except.ok ⟨1⟩ else Except.error ⟨"unexpected collector options"⟩,
    stdouttraceNew := fun opts =>
      if opts = [StdoutOption.WithPrettyPrint]
      then Except.ok ⟨2⟩ else Except.error ⟨"unexpected stdout options"⟩ }

/-- A config with a collector endpoint. -/
def jaegerConfig : Config :=
  { JaegerEndpoint := "http://jaeger:14268/api/traces", Logger := ⟨7⟩ }

/-- A config without a collector endpoint. -/
def stdoutConfig : Config := { JaegerEndpoint := "", Logger := ⟨7⟩ }

/-- A process in which nothing has been installed or called yet. -/
def startWorld (bi : Option BuildInfo) : World :=
  { buildInfo := bi, tracerProvider := none, textMapPropagator := none, trace := [] }

/-- The service name `NewTracer` passes to `init`. -/
def loginUIService : String := "github.com/canonical/identity-platform-login-ui"

end tracing

namespace extra

open otel

/-- Whether the provider answers a call with an error. -/
def callFails (svc : ServiceInterface) : ProviderCall → Bool
  | ProviderCall.CheckSession cookies =>
    match svc.CheckSession cookies with
    | Except.error _ => true
    | Except.ok _ => false
  | ProviderCall.GetConsent challenge =>
    match svc.GetConsent challenge with
    | Except.error _ => true
    | Except.ok _ => false
  | ProviderCall.AcceptConsent identity consent =>
    match svc.AcceptConsent identity consent with
    | Except.error _ => true
    | Except.ok _ => false

/-- Whether a call is a call to `GetConsent`. -/
def ProviderCall.isGetConsent : ProviderCall → Bool
  | ProviderCall.GetConsent _ => true
  | _ => false

/-- Whether a call is a call to `AcceptConsent`. -/
def ProviderCall.isAcceptConsent : ProviderCall → Bool
  | ProviderCall.AcceptConsent _ _ => true
  | _ => false

/-- The session of the tests. -/
def testSession : Session :=
  { Id := "test",
    Identity := { Id := "test", SchemaId := "test.json",
                  SchemaUrl := "https://test.com/test.json", Traits := [("name", "name")] } }

/-- The consent request of the tests. -/
def testConsent : OAuth2ConsentRequest := { Challenge := "challenge" }

/-- The accept decision of the success test. -/
def testAccept : OAuth2RedirectTo := { RedirectTo := "test" }

/-- The request of the tests. -/
def testRequest : Request :=
  { cookies := [], query := [("consent_challenge", "7bb518c4eec2454dbb289f5fdb4c0ee2")] }

/-- The error the failing mocks return. -/
def testError : Error := { msg := "error" }

/-- The mock of the success test. -/
def mockSuccess : ServiceInterface :=
  { CheckSession := fun _ => Except.ok testSession,
    GetConsent := fun c =>
      if c = "7bb518c4eec2454dbb289f5fdb4c0ee2" then Except.ok testConsent
      else Except.error testError,
    AcceptConsent := fun _ _ => Except.ok testAccept }

/-- The mock of the test in which `AcceptConsent` fails. -/
def mockFailAcceptConsent : ServiceInterface :=
  { mockSuccess with AcceptConsent := fun _ _ => Except.error testError }

/-- The mock of the test in which `GetConsent` fails; a call to
`AcceptConsent` would succeed. -/
def mockFailGetConsent : ServiceInterface :=
  { mockSuccess with GetConsent := fun _ => Except.error testError }

/-- The mock of the test in which `CheckSession` fails; calls to the other
two methods would succeed. -/
def mockFailCheckSession : ServiceInterface :=
  { mockSuccess with CheckSession := fun _ => Except.error testError }

end extra

/-! ## Theorems about package `tracing` -/

namespace tracing

open otel debug

section helpers

theorem gitRevision_no_key (t : Tracer) (l : List BuildSetting)
    (h : ∀ x ∈ l, x.Key ≠ "vcs.revision") : t.gitRevision l = "n/a" := by
  induction l with
  | nil => rfl
  | cons a rest ih =>
    have ha : a.Key ≠ "vcs.revision" := h a (List.mem_cons_self _ _)
    have hr : ∀ x ∈ rest, x.Key ≠ "vcs.revision" :=
      fun x hx => h x (List.mem_cons_of_mem _ hx)
    simp [Tracer.gitRevision, ha, ih hr]

theorem gitRevision_first (t : Tracer) (pre post : List BuildSetting) (s : BuildSetting)
    (hpre : ∀ x ∈ pre, x.Key ≠ "vcs.revision") (hs : s.Key = "vcs.revision") :
    t.gitRevision (pre ++ s :: post) = s.Value := by
  induction pre with
  | nil => simp [Tracer.gitRevision, hs]
  | cons a rest ih =>
    have ha : a.Key ≠ "vcs.revision" := hpre a (List.mem_cons_self _ _)
    have hr : ∀ x ∈ rest, x.Key ≠ "vcs.revision" :=
      fun x hx => hpre x (List.mem_cons_of_mem _ hx)
    simp [Tracer.gitRevision, ha, ih hr]

theorem first_revision_split (l : List BuildSetting)
    (h : ∃ s ∈ l, s.Key = "vcs.revision") :
    ∃ pre s post, l = pre ++ s :: post ∧ (∀ x ∈ pre, x.Key ≠ "vcs.revision") ∧
      s.Key = "vcs.revision" := by
  induction l with
  | nil => obtain ⟨s, hs, _⟩ := h; cases hs
  | cons a rest ih =>
    by_cases ha : a.Key = "vcs.revision"
    · exact ⟨[], a, rest, rfl, by simp, ha⟩
    · obtain ⟨s, hs, hk⟩ := h
      have hrest : ∃ s ∈ rest, s.Key = "vcs.revision" := by
        rcases List.mem_cons.mp hs with h1 | h1
        · exact absurd (h1 ▸ hk) ha
        · exact ⟨s, h1, hk⟩
      obtain ⟨pre, s2, post, hl, hpre, hk2⟩ := ih hrest
      refine ⟨a :: pre, s2, post, by simp [hl], ?_, hk2⟩
      intro x hx
      rcases List.mem_cons.mp hx with h1 | h1
      · exact h1 ▸ ha
      · exact hpre x h1

theorem lookup_service_name_some (t : Tracer) (info : BuildInfo) (hint : String) :
    (t.buildResource (some info) hint).lookup "service.name"
      = some (if hint = "" then info.Path else hint) := by
  simp [Tracer.buildResource, NewWithAttributes, Resource.lookup, ServiceName,
    attributeString]

theorem lookup_service_name_none (t : Tracer) (hint : String) :
    (t.buildResource none hint).lookup "service.name" = some hint := by
  simp [Tracer.buildResource, NewWithAttributes, Resource.lookup, ServiceName,
    attributeString]

theorem lookup_git_sha_some (t : Tracer) (info : BuildInfo) (hint : String) :
    (t.buildResource (some info) hint).lookup "git_sha"
      = some (t.gitRevision info.Settings) := by
  simp [Tracer.buildResource, NewWithAttributes, Resource.lookup, ServiceName,
    attributeString]

theorem lookup_git_sha_none (t : Tracer) (hint : String) :
    (t.buildResource none hint).lookup "git_sha" = none := by
  simp [Tracer.buildResource, NewWithAttributes, Resource.lookup, ServiceName,
    ServiceVersion, attributeString]

/-- The attributes `buildResource` passes to the resource constructor never
repeat a key, so the set the SDK builds from them holds each of them. -/
theorem buildResource_keys_nodup (t : Tracer) (bi : Option BuildInfo) (hint : String) :
    (t.buildResource bi hint).keys.Nodup := by
  cases bi <;>
    simp [Tracer.buildResource, NewWithAttributes, Resource.keys, ServiceName,
      ServiceVersion, attributeString]

theorem newExporter_buildInfo (env : Exporters) (cfg : Config) (w : World) :
    (newExporter env cfg w).2.buildInfo = w.buildInfo := by
  unfold newExporter
  split <;> rfl

theorem newExporter_trace (env : Exporters) (cfg : Config) (w : World) :
    ∃ c, (newExporter env cfg w).2.trace = w.trace ++ [c] ∧ c.isExporterNew = true := by
  unfold newExporter
  split
  · exact ⟨_, rfl, rfl⟩
  · exact ⟨_, rfl, rfl⟩

theorem newExporter_result (env : Exporters) (cfg : Config) (w : World) :
    (newExporter env cfg w).1
      = if cfg.JaegerEndpoint ≠ "" then
          env.jaegerNew [EndpointOption.WithCollectorEndpoint
            [CollectorEndpointOption.WithEndpoint cfg.JaegerEndpoint]]
        else env.stdouttraceNew [StdoutOption.WithPrettyPrint] := by
  unfold newExporter
  split <;> rfl

theorem NewTracer_error_eq (env : Exporters) (cfg : Config) (w : World)
    (err : Error) (h : (newExporter env cfg w).1 = Except.error err) :
    NewTracer env cfg w
      = (none, (newExporter env cfg w).2.record
          (Call.Errorf cfg.Logger "unable to initialize tracing exporter due: %w" err)) := by
  unfold NewTracer
  rcases hx : newExporter env cfg w with ⟨r, w1⟩
  rw [hx] at h
  simp only at h
  subst h
  rfl

theorem NewTracer_ok_eq (env : Exporters) (cfg : Config) (w : World)
    (exporter : SpanExporter) (h : (newExporter env cfg w).1 = Except.ok exporter) :
    NewTracer env cfg w
      = (some (Tracer.init { tracer := none, logger := cfg.Logger }
            "github.com/canonical/identity-platform-login-ui" exporter
            (newExporter env cfg w).2).1,
         (Tracer.init { tracer := none, logger := cfg.Logger }
            "github.com/canonical/identity-platform-login-ui" exporter
            (newExporter env cfg w).2).2) := by
  unfold NewTracer
  rcases hx : newExporter env cfg w with ⟨r, w1⟩
  rw [hx] at h
  simp only at h
  subst h
  rfl

end helpers

end tracing

namespace tracing

open otel debug

/-- C4 (counterexample): with no build metadata and the service name that
`NewTracer` itself passes, the resource built by `buildResource` has that
name as its service name, not the text n/a; so the claim that both the service
name and the service version are n/a fails for this hint. -/
theorem no_info_service_name_counterexample :
    (sampleTracer.buildResource none loginUIService).lookup "service.name"
        = some "github.com/canonical/identity-platform-login-ui" ∧
      ¬ ((sampleTracer.buildResource none loginUIService).lookup "service.name" = some "n/a" ∧
         (sampleTracer.buildResource none loginUIService).lookup "service.version" = some "n/a") := by
  decide

/-- C4 (amended): for every service name hint, when no build metadata is
available, `buildResource` returns a resource whose service name is the hint
unchanged, whose service version is n/a, and which carries no git_sha and no
app attribute (its attributes are exactly service name and service version). -/
theorem buildResource_no_info (t : Tracer) (hint : String) :
    (t.buildResource none hint).lookup "service.name" = some hint ∧
      (t.buildResource none hint).lookup "service.version" = some "n/a" ∧
      (t.buildResource none hint).lookup "git_sha" = none ∧
      (t.buildResource none hint).lookup "app" = none ∧
      (t.buildResource none hint).keys = ["service.name", "service.version"] := by
  refine ⟨lookup_service_name_none t hint, ?_, lookup_git_sha_none t hint, ?_, ?_⟩ <;>
    simp [Tracer.buildResource, NewWithAttributes, Resource.lookup, Resource.keys,
      ServiceName, ServiceVersion, attributeString]

/-- C5: for every service name hint and every available build metadata whose
settings contain an entry with key vcs.revision, the settings split at the
first such entry, and the git_sha attribute of the resource built by
`buildResource` is the value of that first entry, unmodified. -/
theorem buildResource_revision (t : Tracer) (hint : String) (info : BuildInfo)
    (h : ∃ s ∈ info.Settings, s.Key = "vcs.revision") :
    ∃ pre s post, info.Settings = pre ++ s :: post ∧
      (∀ x ∈ pre, x.Key ≠ "vcs.revision") ∧ s.Key = "vcs.revision" ∧
      (t.buildResource (some info) hint).lookup "git_sha" = some s.Value := by
  obtain ⟨pre, s, post, hl, hpre, hs⟩ := first_revision_split info.Settings h
  refine ⟨pre, s, post, hl, hpre, hs, ?_⟩
  rw [lookup_git_sha_some, hl, gitRevision_first t pre post s hpre hs]

/-- C5 (witness): the sample build metadata carries two vcs.revision settings;
the git_sha attribute is the value of the first one. -/
theorem buildResource_revision_witness :
    (∃ pre s post, sampleInfo.Settings = pre ++ s :: post ∧
      (∀ x ∈ pre, x.Key ≠ "vcs.revision") ∧ s.Key = "vcs.revision" ∧
      (sampleTracer.buildResource (some sampleInfo) "").lookup "git_sha" = some s.Value) ∧
      (sampleTracer.buildResource (some sampleInfo) "").lookup "git_sha" = some "3f2a9c1" :=
  ⟨buildResource_revision sampleTracer "" sampleInfo
      ⟨⟨"vcs.revision", "3f2a9c1"⟩, by decide, rfl⟩,
    by decide⟩

/-- C6 (counterexample): for build metadata whose main package lies below the
module root, `buildResource` with an empty hint names the service after the
main package path, which differs from the path of the main module that it
attaches as the app attribute. -/
theorem buildResource_empty_hint_counterexample :
    (sampleTracer.buildResource (some sampleInfo) "").lookup "service.name"
        = some "example.com/login-ui/cmd/server" ∧
      (sampleTracer.buildResource (some sampleInfo) "").lookup "app"
        = some "example.com/login-ui" ∧
      (sampleTracer.buildResource (some sampleInfo) "").lookup "service.name"
        ≠ some sampleInfo.Main.Path := by
  decide

/-- C6 (amended): for every available build metadata, `buildResource` with an
empty hint returns a resource whose service name is the main package path of
the build (the field Path of the build info), and with a non-empty hint the
service name is the hint; the app attribute is the path of the main module
in both cases. -/
theorem buildResource_service_name (t : Tracer) (info : BuildInfo) (hint : String) :
    (t.buildResource (some info) hint).lookup "service.name"
        = some (if hint = "" then info.Path else hint) ∧
      (t.buildResource (some info) hint).lookup "app" = some info.Main.Path := by
  refine ⟨lookup_service_name_some t info hint, ?_⟩
  simp [Tracer.buildResource, NewWithAttributes, Resource.lookup, ServiceName,
    attributeString]

/-- C7: for every config, if the construction of the selected exporter returns
an error, `NewTracer` returns nil, the only call it makes after the exporter
constructor is one `Errorf` on the logger of the config with that error, none of
the calls of `init` is made (no resource is built), and the process-wide
tracer provider and propagator are what they were before. -/
theorem NewTracer_exporter_error (env : Exporters) (cfg : Config) (w : World)
    (err : Error) (h : (newExporter env cfg w).1 = Except.error err) :
    (NewTracer env cfg w).1 = none ∧
      ((NewTracer env cfg w).2.callsSince w).filter Call.isErrorf
        = [Call.Errorf cfg.Logger "unable to initialize tracing exporter due: %w" err] ∧
      ((NewTracer env cfg w).2.callsSince w).filter Call.isInitCall = [] ∧
      ((NewTracer env cfg w).2.callsSince w).length = 2 ∧
      (NewTracer env cfg w).2.tracerProvider = w.tracerProvider ∧
      (NewTracer env cfg w).2.textMapPropagator = w.textMapPropagator := by
  unfold newExporter at h
  by_cases hj : cfg.JaegerEndpoint = ""
  · simp [hj] at h
    simp [NewTracer, newExporter, hj, h, World.record, World.callsSince,
      Call.isErrorf, Call.isInitCall]
  · simp [hj] at h
    simp [NewTracer, newExporter, hj, h, World.record, World.callsSince,
      Call.isErrorf, Call.isInitCall]

/-- C7 (witness): a config with a collector endpoint whose exporter
constructor fails. -/
theorem NewTracer_exporter_error_witness :
    (NewTracer failingExporters jaegerConfig (startWorld (some sampleInfo))).1 = none ∧
      ((NewTracer failingExporters jaegerConfig (startWorld (some sampleInfo))).2.callsSince
          (startWorld (some sampleInfo))).filter Call.isErrorf
        = [Call.Errorf jaegerConfig.Logger "unable to initialize tracing exporter due: %w"
            ⟨"invalid collector endpoint"⟩] ∧
      ((NewTracer failingExporters jaegerConfig (startWorld (some sampleInfo))).2.callsSince
          (startWorld (some sampleInfo))).filter Call.isInitCall = [] ∧
      ((NewTracer failingExporters jaegerConfig (startWorld (some sampleInfo))).2.callsSince
          (startWorld (some sampleInfo))).length = 2 ∧
      (NewTracer failingExporters jaegerConfig (startWorld (some sampleInfo))).2.tracerProvider
        = (startWorld (some sampleInfo)).tracerProvider ∧
      (NewTracer failingExporters jaegerConfig (startWorld (some sampleInfo))).2.textMapPropagator
        = (startWorld (some sampleInfo)).textMapPropagator :=
  NewTracer_exporter_error failingExporters jaegerConfig (startWorld (some sampleInfo))
    ⟨"invalid collector endpoint"⟩ rfl

/-- C8: for every config, `NewTracer` calls exactly one exporter constructor:
the Jaeger one, with the collector endpoint of the config, exactly when that
endpoint is a non-empty string, and otherwise the stdout one with
pretty-printing.  The exporter it goes on with is what that constructor
returns for these options: the result of the construction step is the result
of the selected constructor; when that constructor returns an exporter, the
tracer provider installed process-wide batches to that very exporter; when it
returns an error, `NewTracer` returns nil and the one `Errorf` carries that
very error. -/
theorem NewTracer_one_exporter (env : Exporters) (cfg : Config) (w : World) :
    ((NewTracer env cfg w).2.callsSince w).filter Call.isExporterNew
      = [if cfg.JaegerEndpoint ≠ "" then
           Call.jaegerNew [EndpointOption.WithCollectorEndpoint
             [CollectorEndpointOption.WithEndpoint cfg.JaegerEndpoint]]
         else Call.stdouttraceNew [StdoutOption.WithPrettyPrint]] ∧
      (newExporter env cfg w).1
        = (if cfg.JaegerEndpoint ≠ "" then
             env.jaegerNew [EndpointOption.WithCollectorEndpoint
               [CollectorEndpointOption.WithEndpoint cfg.JaegerEndpoint]]
           else env.stdouttraceNew [StdoutOption.WithPrettyPrint]) ∧
      (∀ exporter : SpanExporter,
        (if cfg.JaegerEndpoint ≠ "" then
           env.jaegerNew [EndpointOption.WithCollectorEndpoint
             [CollectorEndpointOption.WithEndpoint cfg.JaegerEndpoint]]
         else env.stdouttraceNew [StdoutOption.WithPrettyPrint]) = Except.ok exporter →
        ∃ t tp, (NewTracer env cfg w).1 = some t ∧
          (NewTracer env cfg w).2.tracerProvider = some tp ∧ tp.batcher = exporter ∧
          ((NewTracer env cfg w).2.callsSince w).filter Call.isErrorf = []) ∧
      (∀ err : Error,
        (if cfg.JaegerEndpoint ≠ "" then
           env.jaegerNew [EndpointOption.WithCollectorEndpoint
             [CollectorEndpointOption.WithEndpoint cfg.JaegerEndpoint]]
         else env.stdouttraceNew [StdoutOption.WithPrettyPrint]) = Except.error err →
        (NewTracer env cfg w).1 = none ∧
          ((NewTracer env cfg w).2.callsSince w).filter Call.isErrorf
            = [Call.Errorf cfg.Logger "unable to initialize tracing exporter due: %w" err] ∧
          (NewTracer env cfg w).2.tracerProvider = w.tracerProvider) := by
  refine ⟨?_, newExporter_result env cfg w, ?_, ?_⟩
  · by_cases hj : cfg.JaegerEndpoint = ""
    · cases hr : env.stdouttraceNew [StdoutOption.WithPrettyPrint] <;>
        simp [NewTracer, newExporter, hj, hr, Tracer.init, World.record, World.callsSince,
          Call.isExporterNew]
    · cases hr : env.jaegerNew [EndpointOption.WithCollectorEndpoint
          [CollectorEndpointOption.WithEndpoint cfg.JaegerEndpoint]] <;>
        simp [NewTracer, newExporter, hj, hr, Tracer.init, World.record, World.callsSince,
          Call.isExporterNew]
  · intro exporter he
    have h : (newExporter env cfg w).1 = Except.ok exporter := by
      rw [newExporter_result]; exact he
    obtain ⟨c, hc, hx⟩ := newExporter_trace env cfg w
    refine ⟨(Tracer.init { tracer := none, logger := cfg.Logger }
        "github.com/canonical/identity-platform-login-ui" exporter
        (newExporter env cfg w).2).1,
      { sampler := Sampler.AlwaysSample, batcher := exporter,
        resource := Tracer.buildResource { tracer := none, logger := cfg.Logger }
          w.buildInfo "github.com/canonical/identity-platform-login-ui" },
      ?_, ?_, rfl, ?_⟩
    · rw [NewTracer_ok_eq env cfg w exporter h]
    · rw [NewTracer_ok_eq env cfg w exporter h]
      simp [Tracer.init, World.record, newExporter_buildInfo]
    · rw [NewTracer_ok_eq env cfg w exporter h]
      simp [Tracer.init, World.record, World.callsSince, hc, Call.isErrorf]
      cases c <;> simp_all [Call.isExporterNew, Call.isErrorf]
  · intro err he
    have h : (newExporter env cfg w).1 = Except.error err := by
      rw [newExporter_result]; exact he
    obtain ⟨c, hc, hx⟩ := newExporter_trace env cfg w
    rw [NewTracer_error_eq env cfg w err h]
    refine ⟨rfl, ?_, ?_⟩
    · simp [World.record, World.callsSince, hc, Call.isErrorf]
      cases c <;> simp_all [Call.isExporterNew, Call.isErrorf]
    · simp only [World.record]
      unfold newExporter
      split <;> rfl

/-- C8 (witness): constructors that check their options and hand out
different exporters.  With a collector endpoint the installed provider batches
to the exporter of the Jaeger constructor called with that endpoint, without
one to the exporter of the stdout constructor called with pretty-printing;
and when the stdout constructor fails, its error is the one logged. -/
theorem NewTracer_one_exporter_witness :
    (∃ t tp, (NewTracer checkingExporters jaegerConfig (startWorld none)).1 = some t ∧
        (NewTracer checkingExporters jaegerConfig (startWorld none)).2.tracerProvider
          = some tp ∧ tp.batcher = ⟨1⟩ ∧
        ((NewTracer checkingExporters jaegerConfig (startWorld none)).2.callsSince
          (startWorld none)).filter Call.isErrorf = []) ∧
      (∃ t tp, (NewTracer checkingExporters stdoutConfig (startWorld none)).1 = some t ∧
        (NewTracer checkingExporters stdoutConfig (startWorld none)).2.tracerProvider
          = some tp ∧ tp.batcher = ⟨2⟩ ∧
        ((NewTracer checkingExporters stdoutConfig (startWorld none)).2.callsSince
          (startWorld none)).filter Call.isErrorf = []) ∧
      ((NewTracer failingExporters stdoutConfig (startWorld none)).1 = none ∧
        ((NewTracer failingExporters stdoutConfig (startWorld none)).2.callsSince
            (startWorld none)).filter Call.isErrorf
          = [Call.Errorf stdoutConfig.Logger "unable to initialize tracing exporter due: %w"
              ⟨"stdout is closed"⟩] ∧
        (NewTracer failingExporters stdoutConfig (startWorld none)).2.tracerProvider
          = (startWorld none).tracerProvider) ∧
      ((NewTracer checkingExporters jaegerConfig (startWorld none)).2.callsSince
          (startWorld none)).filter Call.isExporterNew
        = [Call.jaegerNew [EndpointOption.WithCollectorEndpoint
            [CollectorEndpointOption.WithEndpoint "http://jaeger:14268/api/traces"]]] :=
  ⟨(NewTracer_one_exporter checkingExporters jaegerConfig (startWorld none)).2.2.1 ⟨1⟩ rfl,
    (NewTracer_one_exporter checkingExporters stdoutConfig (startWorld none)).2.2.1 ⟨2⟩ rfl,
    (NewTracer_one_exporter failingExporters stdoutConfig (startWorld none)).2.2.2
      ⟨"stdout is closed"⟩ rfl,
    (NewTracer_one_exporter checkingExporters jaegerConfig (startWorld none)).1⟩

/-- C9: for every service name hint and every available build metadata whose
settings contain no entry with key vcs.revision, `gitRevision` returns n/a and
`buildResource` attaches git_sha with value n/a; and for every state of the
build metadata the git_sha attribute is absent exactly when no build metadata
is available. -/
theorem buildResource_no_revision_setting (t : Tracer) (hint : String) (info : BuildInfo)
    (h : ∀ s ∈ info.Settings, s.Key ≠ "vcs.revision") :
    t.gitRevision info.Settings = "n/a" ∧
      (t.buildResource (some info) hint).lookup "git_sha" = some "n/a" ∧
      ∀ (bi : Option BuildInfo) (service : String),
        (t.buildResource bi service).lookup "git_sha" = none ↔ bi = none := by
  refine ⟨gitRevision_no_key t _ h, ?_, ?_⟩
  · rw [lookup_git_sha_some, gitRevision_no_key t _ h]
  · intro bi service
    cases bi with
    | none => simp [lookup_git_sha_none]
    | some i => simp [lookup_git_sha_some]

/-- C9 (witness): build metadata of a binary built outside version control,
and build metadata with an empty settings list. -/
theorem buildResource_no_revision_setting_witness :
    (sampleTracer.gitRevision sampleInfoNoVcs.Settings = "n/a" ∧
      (sampleTracer.buildResource (some sampleInfoNoVcs) "svc").lookup "git_sha" = some "n/a" ∧
      ∀ (bi : Option BuildInfo) (service : String),
        (sampleTracer.buildResource bi service).lookup "git_sha" = none ↔ bi = none) ∧
      sampleTracer.gitRevision [] = "n/a" :=
  ⟨buildResource_no_revision_setting sampleTracer "svc" sampleInfoNoVcs (by decide), rfl⟩

/-- C10: for every config for which the construction of the selected exporter
succeeds, and for every state of the build metadata, `NewTracer` returns a
tracer that is not nil, the only resource it builds is built for the fixed
name of the login UI, and the tracer provider it installs process-wide
carries the resource `buildResource` yields for that name, whose service
name is exactly that name. -/
theorem NewTracer_service_name (env : Exporters) (cfg : Config) (w : World)
    (exporter : SpanExporter) (h : (newExporter env cfg w).1 = Except.ok exporter) :
    ∃ t tp, (NewTracer env cfg w).1 = some t ∧
      (NewTracer env cfg w).2.tracerProvider = some tp ∧
      tp.batcher = exporter ∧
      tp.resource = Tracer.buildResource { tracer := none, logger := cfg.Logger }
        w.buildInfo "github.com/canonical/identity-platform-login-ui" ∧
      tp.resource.lookup "service.name"
        = some "github.com/canonical/identity-platform-login-ui" ∧
      ((NewTracer env cfg w).2.callsSince w).filter Call.isBuildResource
        = [Call.buildResource "github.com/canonical/identity-platform-login-ui"] := by
  have hname : ∀ (t : Tracer) (bi : Option BuildInfo),
      (t.buildResource bi "github.com/canonical/identity-platform-login-ui").lookup
        "service.name" = some "github.com/canonical/identity-platform-login-ui" := by
    intro t bi
    cases bi with
    | none => exact lookup_service_name_none t _
    | some i => rw [lookup_service_name_some]; simp
  refine ⟨(Tracer.init { tracer := none, logger := cfg.Logger }
      "github.com/canonical/identity-platform-login-ui" exporter (newExporter env cfg w).2).1,
    { sampler := Sampler.AlwaysSample, batcher := exporter,
      resource := Tracer.buildResource { tracer := none, logger := cfg.Logger }
        w.buildInfo "github.com/canonical/identity-platform-login-ui" },
    ?_, ?_, rfl, rfl, hname _ _, ?_⟩
  · rw [NewTracer_ok_eq env cfg w exporter h]
  · rw [NewTracer_ok_eq env cfg w exporter h]
    simp [Tracer.init, World.record, newExporter_buildInfo]
  · rw [NewTracer_ok_eq env cfg w exporter h]
    obtain ⟨c, hc, hx⟩ := newExporter_trace env cfg w
    simp [Tracer.init, World.record, World.callsSince, hc, Call.isBuildResource]
    cases c <;> simp_all [Call.isExporterNew, Call.isBuildResource]

/-- C10 (witness): a config without a collector endpoint, in a process with
build metadata. -/
theorem NewTracer_service_name_witness :
    ∃ t tp, (NewTracer workingExporters stdoutConfig (startWorld (some sampleInfo))).1 = some t ∧
      (NewTracer workingExporters stdoutConfig (startWorld (some sampleInfo))).2.tracerProvider
        = some tp ∧
      tp.batcher = ⟨2⟩ ∧
      tp.resource = Tracer.buildResource { tracer := none, logger := stdoutConfig.Logger }
        (startWorld (some sampleInfo)).buildInfo
        "github.com/canonical/identity-platform-login-ui" ∧
      tp.resource.lookup "service.name"
        = some "github.com/canonical/identity-platform-login-ui" ∧
      ((NewTracer workingExporters stdoutConfig (startWorld (some sampleInfo))).2.callsSince
          (startWorld (some sampleInfo))).filter Call.isBuildResource
        = [Call.buildResource "github.com/canonical/identity-platform-login-ui"] :=
  NewTracer_service_name workingExporters stdoutConfig (startWorld (some sampleInfo)) ⟨2⟩ rfl

end tracing

/-! ## Theorems about the JSON text and the consent endpoint -/

namespace json

theorem hexValue_hexDigit (k : Nat) (h : k < 16) : hexValue (hexDigit k) = some k := by
  interval_cases k <;> decide

theorem hex4Value_hex4 (n : Nat) (h : n < 65536) :
    hex4Value (hexDigit (n / 4096)) (hexDigit (n / 256 % 16)) (hexDigit (n / 16 % 16))
      (hexDigit (n % 16)) = some n := by
  have h1 : n / 4096 < 16 := by omega
  have h2 : n / 256 % 16 < 16 := by omega
  have h3 : n / 16 % 16 < 16 := by omega
  have h4 : n % 16 < 16 := by omega
  simp only [hex4Value, hexValue_hexDigit _ h1, hexValue_hexDigit _ h2,
    hexValue_hexDigit _ h3, hexValue_hexDigit _ h4]
  congr 1
  omega

theorem needsUnicodeEscape_lt (c : Char) (h : needsUnicodeEscape c = true) :
    c.toNat < 65536 := by
  simp [needsUnicodeEscape] at h
  omega

theorem backslash_ne_quote : backslash ≠ quote := by decide

theorem readString_simple (e ch : Char) (acc tl : List Char) (hu : e ≠ 'u')
    (he : unescapeSimple e = some ch) :
    readString Mode.plain acc (backslash :: e :: tl) = readString Mode.plain (ch :: acc) tl := by
  simp [readString, backslash_ne_quote, hu, he]

theorem readString_unicode (n : Nat) (acc tl : List Char) (h : n < 65536) :
    readString Mode.plain acc (backslash :: 'u' :: hex4 n ++ tl)
      = readString Mode.plain (Char.ofNat n :: acc) tl := by
  simp [readString, backslash_ne_quote, hex4, hex4Value_hex4 n h]

theorem eq_ofNat_of_toNat (c : Char) (n : Nat) (h : c.toNat = n) : c = Char.ofNat n := by
  rw [← h, Char.ofNat_toNat]

theorem readString_escapeChar (c : Char) (acc tl : List Char) :
    readString Mode.plain acc (escapeChar c ++ tl) = readString Mode.plain (c :: acc) tl := by
  unfold escapeChar
  split_ifs with h1 h2 h3 h4 h5 h6
  · subst h1
    exact readString_simple quote quote acc tl (by decide) (by decide)
  · subst h2
    exact readString_simple backslash backslash acc tl (by decide) (by decide)
  · rw [eq_ofNat_of_toNat c 10 h3]
    exact readString_simple 'n' _ acc tl (by decide) (by decide)
  · rw [eq_ofNat_of_toNat c 13 h4]
    exact readString_simple 'r' _ acc tl (by decide) (by decide)
  · rw [eq_ofNat_of_toNat c 9 h5]
    exact readString_simple 't' _ acc tl (by decide) (by decide)
  · have := readString_unicode c.toNat acc tl (needsUnicodeEscape_lt c h6)
    rw [Char.ofNat_toNat] at this
    exact this
  · simp [readString, h1, h2]

theorem readString_escape (s acc tl : List Char) :
    readString Mode.plain acc (escape s ++ quote :: tl) = some (acc.reverse ++ s, tl) := by
  induction s generalizing acc with
  | nil => simp [escape, readString]
  | cons c rest ih =>
    simp only [escape, List.append_assoc]
    rw [readString_escapeChar, ih]
    simp

theorem dropHeader_append (pre l : List Char) : dropHeader pre (pre ++ l) = some l := by
  induction pre with
  | nil => cases l <;> rfl
  | cons p rest ih => simp [dropHeader, ih]

end json

namespace extra

open otel

section helpers

/-- Decoding the serialisation of a consent decision gives the decision back. -/
theorem Unmarshal_MarshalJSON (d : OAuth2RedirectTo) : Unmarshal (MarshalJSON d) = some d := by
  unfold Unmarshal MarshalJSON
  simp only [List.append_assoc, json.dropHeader_append]
  have := json.readString_escape d.RedirectTo.data [] [Char.ofNat 125]
  simp only [List.cons_append, List.nil_append, List.reverse_nil] at this ⊢
  rw [this]
  simp

/-- The concrete scenario of the specification: the body written for the
decision that redirects to the done page. -/
theorem MarshalJSON_scenario :
    MarshalJSON ⟨"https://example.test/done"⟩
      = "\x7b\"redirect_to\":\"https://example.test/done\"\x7d" := by
  decide

end helpers

/-- C1: for every request that carries a consent_challenge value c, if
`CheckSession` returns a session s, `GetConsent` on c returns a consent
request r and `AcceptConsent` on the identity of s and r returns a decision d,
all without error, then the handler answers with status 200 and a body that
decodes to the redirect target of d, and the provider calls it makes are
`CheckSession`, then `GetConsent` with c, then `AcceptConsent` with the
identity of s and with r. -/
theorem HandleConsent_success (svc : ServiceInterface) (req : Request) (c : String)
    (s : Session) (r : OAuth2ConsentRequest) (d : OAuth2RedirectTo)
    (hc : req.queryGet "consent_challenge" = some c)
    (hs : svc.CheckSession req.cookies = Except.ok s)
    (hg : svc.GetConsent c = Except.ok r)
    (ha : svc.AcceptConsent s.Identity r = Except.ok d) :
    (HandleConsent svc req).response.status = 200 ∧
      Option.map OAuth2RedirectTo.RedirectTo (Unmarshal (HandleConsent svc req).response.body)
        = some d.RedirectTo ∧
      (HandleConsent svc req).calls
        = [ProviderCall.CheckSession req.cookies, ProviderCall.GetConsent c,
           ProviderCall.AcceptConsent s.Identity r] := by
  simp [HandleConsent, hc, hs, hg, ha, Unmarshal_MarshalJSON]

/-- C1 (witness): the success test. -/
theorem HandleConsent_success_witness :
    (HandleConsent mockSuccess testRequest).response.status = 200 ∧
      Option.map OAuth2RedirectTo.RedirectTo
          (Unmarshal (HandleConsent mockSuccess testRequest).response.body)
        = some testAccept.RedirectTo ∧
      (HandleConsent mockSuccess testRequest).calls
        = [ProviderCall.CheckSession testRequest.cookies,
           ProviderCall.GetConsent "7bb518c4eec2454dbb289f5fdb4c0ee2",
           ProviderCall.AcceptConsent testSession.Identity testConsent] :=
  HandleConsent_success mockSuccess testRequest "7bb518c4eec2454dbb289f5fdb4c0ee2"
    testSession testConsent testAccept (by decide) rfl rfl rfl

/-- C2: for every request, if one of the provider calls the handler makes
returns an error, whichever of the three it is, the response status is 403
and `Errorf` is invoked exactly once during the request. -/
theorem HandleConsent_failure (svc : ServiceInterface) (req : Request)
    (h : ∃ call ∈ (HandleConsent svc req).calls, callFails svc call = true) :
    (HandleConsent svc req).response.status = 403 ∧
      (HandleConsent svc req).errorfs.length = 1 := by
  cases hs : svc.CheckSession req.cookies with
  | error e => simp [HandleConsent, hs, failed]
  | ok s =>
    cases hc : req.queryGet "consent_challenge" with
    | none => simp [HandleConsent, hs, hc, failed]
    | some c =>
      cases hg : svc.GetConsent c with
      | error e => simp [HandleConsent, hs, hc, hg, failed]
      | ok r =>
        cases ha : svc.AcceptConsent s.Identity r with
        | error e => simp [HandleConsent, hs, hc, hg, ha, failed]
        | ok d =>
          exfalso
          simp [HandleConsent, hs, hc, hg, ha, callFails] at h

/-- C2 (witness): the three failure tests, one for each step that fails. -/
theorem HandleConsent_failure_witness :
    ((HandleConsent mockFailCheckSession testRequest).response.status = 403 ∧
        (HandleConsent mockFailCheckSession testRequest).errorfs.length = 1) ∧
      ((HandleConsent mockFailGetConsent testRequest).response.status = 403 ∧
        (HandleConsent mockFailGetConsent testRequest).errorfs.length = 1) ∧
      ((HandleConsent mockFailAcceptConsent testRequest).response.status = 403 ∧
        (HandleConsent mockFailAcceptConsent testRequest).errorfs.length = 1) :=
  ⟨HandleConsent_failure mockFailCheckSession testRequest
      ⟨ProviderCall.CheckSession [], by decide, rfl⟩,
    HandleConsent_failure mockFailGetConsent testRequest
      ⟨ProviderCall.GetConsent "7bb518c4eec2454dbb289f5fdb4c0ee2", by decide, rfl⟩,
    HandleConsent_failure mockFailAcceptConsent testRequest
      ⟨ProviderCall.AcceptConsent testSession.Identity testConsent, by decide, rfl⟩⟩

/-- C3: the handler is fail-fast: for every request for which `CheckSession`
returns an error, `CheckSession` is the only provider call made, so neither
`GetConsent` nor `AcceptConsent` is invoked; and for every request for which
`CheckSession` succeeds and `GetConsent` returns an error on the challenge of
the request, the calls made are `CheckSession` and `GetConsent` only, so
`AcceptConsent` is not invoked. -/
theorem HandleConsent_fail_fast (svc : ServiceInterface) (req : Request) :
    (∀ e, svc.CheckSession req.cookies = Except.error e →
        (HandleConsent svc req).calls = [ProviderCall.CheckSession req.cookies] ∧
        (HandleConsent svc req).calls.filter ProviderCall.isGetConsent = [] ∧
        (HandleConsent svc req).calls.filter ProviderCall.isAcceptConsent = []) ∧
      (∀ s c e, svc.CheckSession req.cookies = Except.ok s →
        req.queryGet "consent_challenge" = some c → svc.GetConsent c = Except.error e →
        (HandleConsent svc req).calls
          = [ProviderCall.CheckSession req.cookies, ProviderCall.GetConsent c] ∧
        (HandleConsent svc req).calls.filter ProviderCall.isAcceptConsent = []) := by
  constructor
  · intro e he
    simp [HandleConsent, he, failed, ProviderCall.isGetConsent, ProviderCall.isAcceptConsent]
  · intro s c e hs hc hg
    simp [HandleConsent, hs, hc, hg, failed, ProviderCall.isAcceptConsent]

/-- C3 (witness): the test in which `CheckSession` fails and the test in
which `GetConsent` fails; in both mocks the later calls would have succeeded. -/
theorem HandleConsent_fail_fast_witness :
    ((HandleConsent mockFailCheckSession testRequest).calls
          = [ProviderCall.CheckSession testRequest.cookies] ∧
        (HandleConsent mockFailCheckSession testRequest).calls.filter
          ProviderCall.isGetConsent = [] ∧
        (HandleConsent mockFailCheckSession testRequest).calls.filter
          ProviderCall.isAcceptConsent = []) ∧
      ((HandleConsent mockFailGetConsent testRequest).calls
          = [ProviderCall.CheckSession testRequest.cookies,
             ProviderCall.GetConsent "7bb518c4eec2454dbb289f5fdb4c0ee2"] ∧
        (HandleConsent mockFailGetConsent testRequest).calls.filter
          ProviderCall.isAcceptConsent = []) :=
  ⟨(HandleConsent_fail_fast mockFailCheckSession testRequest).1 testError rfl,
    (HandleConsent_fail_fast mockFailGetConsent testRequest).2 testSession
      "7bb518c4eec2454dbb289f5fdb4c0ee2" testError rfl (by decide) rfl⟩

end extra
